import Mathlib

/-!
Verification development for the `companion-module-uniliga-cg` Companion module
(`src/main.js`). We embed, faithfully to the JavaScript source:

* the JSON value space and `JSON.stringify` (used for outbound envelopes and
  for re-serialising inbound structured values into variable bindings);
* the `object-path` library functions `has` and `get` (dotted/indexed path
  resolution over parsed messages, exactly as that library walks paths,
  including `parseInt`-canonical integer keys and JS truthiness checks);
* the module state machine of `WebsocketInstance`: connection lifecycle
  (`initWebSocket`, `maybeReconnect`, `destroy`, `configUpdated`, socket
  `open` and `close` handlers), the feedback subscription registry
  (`subscribe`, `unsubscribe`, `updateVariables`), the inbound message router
  (`messageReceivedFromWebSocket`) and the `add_score` action dispatcher.

Numbers appearing in JSON are modelled as integers (the module never produces
a non-integer number, and no claim concerns floating point).  JS `undefined`
is a first-class value (`JsValue.undefined`) because `object-path` can step onto
it via negative array indices.
-/

/-- JavaScript values as they occur in this module: everything `JSON.parse`
can produce, plus `undefined` (reachable through `object-path` lookups). -/
inductive JsValue where
  | undefined : JsValue
  | null : JsValue
  | bool (b : Bool) : JsValue
  | num (n : Int) : JsValue
  | str (s : String) : JsValue
  | arr (elems : List JsValue) : JsValue
  | obj (fields : List (String × JsValue)) : JsValue

/-- Lowercase hexadecimal digit, as produced by `JSON.stringify` in
control-character escapes. -/
def hexDigitChar (n : Nat) : Char :=
  if n < 10 then Char.ofNat (48 + n) else Char.ofNat (87 + n)

/-- Escape of a single character inside a JSON string literal, following
`JSON.stringify`: quote and backslash get a backslash escape, the common
control characters get their short escapes, remaining control characters get
a `\u00xx` escape, and everything else is passed through. -/
def escChar (c : Char) : List Char :=
  if c = '"' then ['\\', '"']
  else if c = '\\' then ['\\', '\\']
  else if c = '\x08' then ['\\', 'b']
  else if c = '\x09' then ['\\', 't']
  else if c = '\x0a' then ['\\', 'n']
  else if c = '\x0c' then ['\\', 'f']
  else if c = '\x0d' then ['\\', 'r']
  else if c < ' ' then
    ['\\', 'u', '0', '0', hexDigitChar (c.toNat / 16), hexDigitChar (c.toNat % 16)]
  else [c]

/-- Rendering of a string as a quoted JSON string literal (`JSON.stringify`
on a string value). -/
def jsonQuote (s : String) : String :=
  "\"" ++ String.mk (s.data.flatMap escChar) ++ "\""

/-- Comma-join, as `JSON.stringify` separates array elements and object
entries. -/
def joinComma : List String → String
  | [] => ""
  | [s] => s
  | s :: rest => s ++ "," ++ joinComma rest

mutual

/-- The `JSON.stringify` rendering of a JS value.  Standalone `undefined` is unreachable in
the module (the source only stringifies values whose `typeof` is `object`);
inside arrays `JSON.stringify` emits `null` for `undefined`, which is the
rendering we give it. -/
def stringify : JsValue → String
  | .undefined => "null"
  | .null => "null"
  | .bool true => "true"
  | .bool false => "false"
  | .num n => toString n
  | .str s => jsonQuote s
  | .arr xs => "[" ++ joinComma (stringifyElems xs) ++ "]"
  | .obj fs => "\x7b" ++ joinComma (stringifyFields fs) ++ "\x7d"

/-- Renderings of the elements of a JSON array. -/
def stringifyElems : List JsValue → List String
  | [] => []
  | v :: rest => stringify v :: stringifyElems rest

/-- Renderings of the entries of a JSON object; entries whose value is
`undefined` are omitted, as `JSON.stringify` omits them. -/
def stringifyFields : List (String × JsValue) → List String
  | [] => []
  | (_, .undefined) :: rest => stringifyFields rest
  | (k, v) :: rest => (jsonQuote k ++ ":" ++ stringify v) :: stringifyFields rest

end

/-! ## The `object-path` library: `has` and `get` -/

/-- A path component after the `getKey` step of `object-path`: either a canonical
integer (when `parseInt(key).toString() === key`) or the raw string. -/
inductive PathKey where
  | num (i : Int) : PathKey
  | str (s : String) : PathKey

/-- Decimal digit accumulator for key parsing (structural, so that concrete
path lookups reduce inside the kernel). -/
def digitsValAux : Nat → List Char → Option Nat
  | acc, [] => some acc
  | acc, c :: rest =>
      if 48 ≤ c.toNat && c.toNat ≤ 57 then digitsValAux (acc * 10 + (c.toNat - 48)) rest
      else none

/-- Value of a non-empty all-digit character list. -/
def decodeDigits : List Char → Option Nat
  | [] => none
  | l => digitsValAux 0 l

/-- The `getKey` step of `object-path` (`parseInt(key).toString() === key`): a
component becomes an integer key exactly when it is the canonical decimal
rendering of an integer, which the final re-rendering check enforces. -/
def getKey (s : String) : PathKey :=
  let cand : Option Int :=
    match s.data with
    | '-' :: rest => (decodeDigits rest).map (fun n => -(n : Int))
    | l => (decodeDigits l).map (fun n => (n : Int))
  match cand with
  | some i => if toString i = s then .num i else .str s
  | none => .str s

/-- The string form of a path key (JS property access converts numeric keys
back to strings for non-array objects). -/
def keyStr : PathKey → String
  | .num i => toString i
  | .str s => s

/-- JS truthiness of a value (`object-path` guards `hasOwnProperty` calls
with the bare object). `NaN` does not arise in this integer model. -/
def truthy : JsValue → Bool
  | .undefined => false
  | .null => false
  | .bool b => b
  | .num n => decide (n ≠ 0)
  | .str s => decide (s ≠ "")
  | .arr _ => true
  | .obj _ => true

/-- Whether the JS `typeof` of `v` is the string naming objects, which holds
for objects, arrays and `null`. -/
def typeofObject : JsValue → Bool
  | .null | .arr _ | .obj _ => true
  | _ => false

/-- The test `Object.prototype.hasOwnProperty.call(v, k)`: own properties of plain
objects are their fields; arrays own their in-range indices and `length`;
strings own their character indices and `length`; primitives own nothing. -/
def hasOwnJS : JsValue → PathKey → Bool
  | .obj fs, k => (fs.lookup (keyStr k)).isSome
  | .arr xs, .num i => decide (0 ≤ i) && decide (i < (xs.length : Int))
  | .arr _, .str s => s = "length"
  | .str t, .num i => decide (0 ≤ i) && decide (i < (t.data.length : Int))
  | .str _, .str s => s = "length"
  | _, _ => false

/-- JS property access `v[k]`, yielding `undefined` when the property is
absent (including negative or out-of-range array indices). -/
def propAccess : JsValue → PathKey → JsValue
  | .obj fs, k => (fs.lookup (keyStr k)).getD .undefined
  | .arr xs, .num i =>
      if 0 ≤ i then (xs.get? i.toNat).getD .undefined else .undefined
  | .arr xs, .str s => if s = "length" then .num xs.length else .undefined
  | .str t, .num i =>
      if 0 ≤ i then
        match t.data.get? i.toNat with
        | some c => .str (String.mk [c])
        | none => .undefined
      else .undefined
  | .str t, .str s => if s = "length" then .num t.data.length else .undefined
  | _, _ => .undefined

/-- One step of `object-path.has`: the disjunction
in the library source: either the key is numeric, the object an array and
the key below its length, or the object is truthy and owns the property. -/
def hasStepOk (v : JsValue) (k : PathKey) : Bool :=
  (match k, v with
   | .num i, .arr xs => decide (i < (xs.length : Int))
   | _, _ => false) ||
  (truthy v && hasOwnJS v k)

/-- The loop of `object-path.has`: each component must pass `hasStepOk`,
walking into `v[k]`; once every component has passed, the library returns
`true` unconditionally — the resolved leaf is never truthiness-tested, so a
path resolving to `0`, the empty string, `false` or `null` still counts as
present. -/
def opHasLoop : JsValue → List String → Bool
  | _, [] => true
  | v, k :: rest =>
      let kk := getKey k
      if hasStepOk v kk then opHasLoop (propAccess v kk) rest else false

/-- The whole of `object-path.has(v, path)` on an already-split path: an
empty path returns the truthiness of the value itself (the `!!obj` entry
check of the library, unreachable from the module since splitting any
string yields at least one component); a non-empty path runs the step
loop. -/
def opHas (v : JsValue) (path : List String) : Bool :=
  match path with
  | [] => truthy v
  | _ :: _ => opHasLoop v path

/-- The `getShallowProperty` helper of `object-path`: array access by numeric key is
unconditional, otherwise the property must be owned. -/
def getShallow (v : JsValue) (k : PathKey) : JsValue :=
  if (match k, v with
      | .num _, .arr _ => true
      | _, _ => false) || hasOwnJS v k
  then propAccess v k
  else .undefined

/-- The walk of `object-path.get(v, path)` on an already-split path, with `undefined` as
the default value (as the module calls it). -/
def opGet : JsValue → List String → JsValue
  | v, [] => v
  | v, k :: rest =>
      match v with
      | .undefined => .undefined
      | .null => .undefined
      | _ =>
        let kk := getKey k
        match getShallow v kk, rest with
        | .undefined, _ => .undefined
        | next, [] => next
        | _, _ :: _ => opGet (propAccess v kk) rest

/-- Splitting a character list on the dot separator, as the path split of
`object-path` does. -/
def splitOnDot : List Char → List (List Char)
  | [] => [[]]
  | '.' :: rest => [] :: splitOnDot rest
  | c :: rest =>
      match splitOnDot rest with
      | [] => [[c]]
      | h :: t => (c :: h) :: t

/-- The module passes the raw `subpath` string to `object-path`, which splits
it on dots. -/
def splitPath (s : String) : List String :=
  (splitOnDot s.data).map String.mk

/-! ## Module configuration, state and host-facing effects -/

/-- The recognised config options of the module (`getConfigFields`). -/
structure Config where
  url : String
  project_id : String
  reconnect : Bool
  append_new_line : Bool
  debug_messages : Bool
  reset_variables : Bool
deriving DecidableEq

/-- The `InstanceStatus` values the module reports through `updateStatus`. -/
inductive InstanceStatus where
  | Ok : InstanceStatus
  | Connecting : InstanceStatus
  | Disconnected : InstanceStatus
  | BadConfig : InstanceStatus
deriving DecidableEq

/-- Externally visible calls the module makes while handling one event:
status updates, `ws.close(code)` on a socket, and creation of a new
`WebSocket` (which attaches all four handlers). -/
inductive Effect where
  | statusUpdate (s : InstanceStatus) : Effect
  | wsCloseCall (sock : Nat) (code : Nat) : Effect
  | wsOpenCall (sock : Nat) (url : String) : Effect
deriving DecidableEq

/-- One feedback subscription: the target variable name and the dotted
subpath (possibly empty). -/
structure Subscription where
  variableName : String
  subpath : String
deriving DecidableEq

/-- State of a `WebsocketInstance` together with the parts of its
environment the claims observe: the pending `setTimeout` slots, the socket
identity, and the host-side variable definitions and values. -/
structure St where
  isInitialized : Bool
  config : Config
  reconnect_timer : Option Nat
  pendingTimers : List (Nat × Nat)
  nextTimer : Nat
  ws : Option Nat
  nextWs : Nat
  status : InstanceStatus
  subs : List (String × Subscription)
  varDefs : List String
  varValues : List (String × JsValue)

/-- Insertion (or in-place replacement) in an association list, matching
both `Map.set` and JS object property assignment. -/
def assocSet {α : Type} : List (String × α) → String → α → List (String × α)
  | [], k, v => [(k, v)]
  | (k0, v0) :: rest, k, v =>
      if k0 = k then (k, v) :: rest else (k0, v0) :: assocSet rest k v

/-- The `Map.delete` operation: removes the entry with the given key. -/
def mapDelete {α : Type} (l : List (String × α)) (k : String) : List (String × α) :=
  l.filter (fun e => e.1 ≠ k)

/-- The `clearTimeout` operation on the pending-timer slots. -/
def clearT (l : List (Nat × Nat)) (t : Nat) : List (Nat × Nat) :=
  l.filter (fun p => p.1 ≠ t)

/-- Insertion-ordered deduplication, matching iteration over a JS `Set`. -/
def dedupKeep (l : List String) : List String :=
  l.foldl (fun acc x => if x ∈ acc then acc else acc ++ [x]) []

/-- Character class of `/^[-a-zA-Z0-9_]+$/` (variable name constraint),
stated on code points. -/
def isVarChar (c : Char) : Bool :=
  let n := c.toNat
  n = 45 || (48 ≤ n && n ≤ 57) || (65 ≤ n && n ≤ 90) || (97 ≤ n && n ≤ 122) || n = 95

/-- Whether `variableName.match(/^[-a-zA-Z0-9_]+$/)` succeeds. -/
def varNameOk (s : String) : Bool :=
  s ≠ "" && s.data.all isVarChar

/-- Modelled from the spec: the host-side variable store behind
`setVariableValues` (the `@companion-module/base` host is an external
collaborator, absent from `src/`).  Per the spec, VariableStore keys are
always a subset of the declared variable names, so the host accepts a value
only for a currently declared variable id and ignores the rest. -/
def setVariableValues (defs : List String) (vals : List (String × JsValue))
    (updates : List (String × JsValue)) : List (String × JsValue) :=
  updates.foldl (fun acc kv => if kv.1 ∈ defs then assocSet acc kv.1 kv.2 else acc) vals

/-- Modelled from the spec: the host `parseVariablesInString` facility
(external collaborator, absent from `src/`).  It coerces its argument to a
string and substitutes `$(...)` variable references; on strings containing
no references — the only inputs the dispatched dropdown and number options
produce — it is the identity. -/
def parseVariablesInString (s : String) : String := s

/-- JS string coercion of a numeric option value (an integer), applied when
the module passes `action.options.score` and friends to
`parseVariablesInString`. -/
def numberOptionToString (n : Int) : String := toString n

/-! ## URL validation (`wsRegex`) -/

/-- Character class `[\da-z.-]` of the host part of `wsRegex`, on code
points.  Note the class is lowercase-only and the regex is compiled without
the `i` flag. -/
def isHostChar (c : Char) : Bool :=
  let n := c.toNat
  (48 ≤ n && n ≤ 57) || (97 ≤ n && n ≤ 122) || n = 46 || n = 45

/-- Decimal digit, `\d`. -/
def isDigitChar (c : Char) : Bool :=
  48 ≤ c.toNat && c.toNat ≤ 57

/-- JS line terminators, which `.` does not match. -/
def isLineTerm (c : Char) : Bool :=
  let n := c.toNat
  n = 10 || n = 13 || n = 8232 || n = 8233

/-- The scheme-and-separator prefix `wss?:\/\/` of `wsRegex`. -/
def matchScheme : List Char → Option (List Char)
  | 'w' :: 's' :: 's' :: ':' :: '/' :: '/' :: rest => some rest
  | 'w' :: 's' :: ':' :: '/' :: '/' :: rest => some rest
  | _ => none

/-- The optional path suffix `(?:\/(.*))?$`: either nothing remains, or a
slash followed by characters `.` can match. -/
def matchPath : List Char → Bool
  | [] => true
  | c :: rest => if c = '/' then rest.all (fun d => !isLineTerm d) else false

/-- The remainder after the host: `(:\d{1,5})?(?:\/(.*))?$`. -/
def matchAfterHost : List Char → Bool
  | [] => true
  | c :: rest =>
      if c = ':' then
        let ds := rest.takeWhile isDigitChar
        decide (1 ≤ ds.length) && decide (ds.length ≤ 5) &&
          matchPath (rest.dropWhile isDigitChar)
      else if c = '/' then rest.all (fun d => !isLineTerm d)
      else false

/-- Whether `wsRegex` (`^wss?:\/\/([\da-z.-]+)(:\d{1,5})?(?:\/(.*))?$`,
compiled with no flags) matches the given character list. -/
def wsUrlMatchChars (cs : List Char) : Bool :=
  match matchScheme cs with
  | none => false
  | some rest =>
      let host := rest.takeWhile isHostChar
      decide (1 ≤ host.length) && matchAfterHost (rest.dropWhile isHostChar)

/-- Whether `url.match(new RegExp(this.wsRegex))` succeeds. -/
def wsUrlMatch (s : String) : Bool :=
  wsUrlMatchChars s.data

/-! ## The module operations (`src/main.js`) -/

/-- Function `updateVariables(callerId)`: collects the conforming variable names of
all subscriptions (skipping names failing the regex), declares them through
`setVariableDefinitions`, and — when `reset_variables` is set — resets to
the empty string the variables of the matching subscriptions (all of them
when `callerId` is null, only that of the caller otherwise). -/
def updateVariables (st : St) (callerId : Option String) : St :=
  let conforming := st.subs.filter (fun e => varNameOk e.2.variableName)
  let names := dedupKeep (conforming.map (fun e => e.2.variableName))
  let defaults :=
    (conforming.filter (fun e => callerId = none || callerId = some e.1)).foldl
      (fun acc e => assocSet acc e.2.variableName (JsValue.str "")) []
  let st := { st with varDefs := names }
  if st.config.reset_variables then
    { st with varValues := setVariableValues st.varDefs st.varValues defaults }
  else st

/-- The value a subscription binds: objects (in the `typeof` sense) are
re-serialised with `JSON.stringify`, everything else is passed as-is. -/
def bindValue (v : JsValue) : JsValue :=
  if typeofObject v then .str (stringify v) else v

/-- The body of the `subscriptions.forEach` loop in
`messageReceivedFromWebSocket`, for one subscription: skip empty variable
names; an empty subpath binds the whole message; a non-empty subpath binds
the resolved value when the message passes the `typeof` object test and `objectPath.has`
succeeds, and otherwise changes nothing. -/
def applySubscription (defs : List String) (vars : List (String × JsValue))
    (msg : JsValue) (sub : Subscription) : List (String × JsValue) :=
  if sub.variableName = "" then vars
  else if sub.subpath = "" then
    setVariableValues defs vars [(sub.variableName, bindValue msg)]
  else if typeofObject msg && opHas msg (splitPath sub.subpath) then
    setVariableValues defs vars
      [(sub.variableName, bindValue (opGet msg (splitPath sub.subpath)))]
  else vars

/-- Folding the subscription loop over the registry, in registration order. -/
def routeMessage (defs : List String) (subs : List (String × Subscription))
    (vals : List (String × JsValue)) (msg : JsValue) : List (String × JsValue) :=
  subs.foldl (fun vars e => applySubscription defs vars msg e.2) vals

/-- Handler `messageReceivedFromWebSocket`, after the `JSON.parse` try/catch: the
argument is the parsed value when the frame parsed, and the raw frame string
otherwise (both are `JsValue`s). -/
def messageReceivedFromWebSocket (st : St) (msg : JsValue) : St :=
  { st with varValues := routeMessage st.varDefs st.subs st.varValues msg }

/-- Function `maybeReconnect`: when initialised and `reconnect` is set, clears the
previously stored timer (without nulling the field) and arms a fresh 5000 ms
timeout. -/
def maybeReconnect (st : St) : St :=
  if st.isInitialized && st.config.reconnect then
    let st :=
      match st.reconnect_timer with
      | some t => { st with pendingTimers := clearT st.pendingTimers t }
      | none => st
    { st with
        pendingTimers := st.pendingTimers ++ [(st.nextTimer, 5000)],
        reconnect_timer := some st.nextTimer,
        nextTimer := st.nextTimer + 1 }
  else st

/-- Function `initWebSocket`: clears any pending reconnect timer; rejects an empty or
non-matching URL with `BadConfig` and returns; otherwise reports
`Connecting`, closes and discards any previous socket with code 1000, and
opens a fresh socket (attaching the handlers). -/
def initWebSocket (st : St) : St × List Effect :=
  let st :=
    match st.reconnect_timer with
    | some t => { st with pendingTimers := clearT st.pendingTimers t, reconnect_timer := none }
    | none => st
  if st.config.url = "" || !wsUrlMatch st.config.url then
    ({ st with status := .BadConfig }, [.statusUpdate .BadConfig])
  else
    let st := { st with status := .Connecting }
    let closeEffs :=
      match st.ws with
      | some s => [Effect.wsCloseCall s 1000]
      | none => []
    let st := { st with ws := none }
    let sid := st.nextWs
    ({ st with ws := some sid, nextWs := sid + 1 },
      Effect.statusUpdate .Connecting :: closeEffs ++ [Effect.wsOpenCall sid st.config.url])

/-- The socket `open` handler: reports `Ok` and, when `reset_variables` is
set, runs `updateVariables()`. -/
def onOpen (st : St) : St × List Effect :=
  let st := { st with status := .Ok }
  let st := if st.config.reset_variables then updateVariables st none else st
  (st, [.statusUpdate .Ok])

/-- The socket `close` handler: reports `Disconnected` and runs
`maybeReconnect`. -/
def onClose (st : St) (_code : Nat) : St × List Effect :=
  let st := { st with status := .Disconnected }
  (maybeReconnect st, [.statusUpdate .Disconnected])

/-- A pending timeout firing: the slot is consumed and the callback runs
`initWebSocket`. -/
def timerFire (st : St) (t : Nat) : St × List Effect :=
  initWebSocket { st with pendingTimers := clearT st.pendingTimers t }

/-- Function `destroy`: marks the instance uninitialised, cancels and nulls the
reconnect timer, and closes and deletes the socket with code 1000. -/
def destroy (st : St) : St × List Effect :=
  let st := { st with isInitialized := false }
  let st :=
    match st.reconnect_timer with
    | some t => { st with pendingTimers := clearT st.pendingTimers t, reconnect_timer := none }
    | none => st
  match st.ws with
  | some s => ({ st with ws := none }, [Effect.wsCloseCall s 1000])
  | none => (st, [])

/-- Function `configUpdated`: stores the new config and re-runs `initWebSocket`. -/
def configUpdated (st : St) (cfg : Config) : St × List Effect :=
  initWebSocket { st with config := cfg }

/-- The `websocket_variable` feedback `subscribe` callback: stores (or
replaces) the binding under the feedback id and, when initialised, runs
`updateVariables(feedback.id)`. -/
def subscribeFeedback (st : St) (id variableName subpath : String) : St :=
  let st := { st with subs := assocSet st.subs id ⟨variableName, subpath⟩ }
  if st.isInitialized then updateVariables st (some id) else st

/-- The `websocket_variable` feedback `unsubscribe` callback: deletes the
binding and nothing else. -/
def unsubscribeFeedback (st : St) (id : String) : St :=
  { st with subs := mapDelete st.subs id }

/-- The `add_score` action callback: resolves the three options through the
host substitution facility, wraps them in the `companion_score_change`
envelope with the configured project id, stringifies, and appends CRLF when
`append_new_line` is set.  The returned string is exactly the argument of
`this.ws.send`. -/
def add_score_message (cfg : Config) (actionOpt sideOpt : String) (scoreOpt : Int) : String :=
  let data := JsValue.obj
    [("type", .str (parseVariablesInString actionOpt)),
     ("side", .str (parseVariablesInString sideOpt)),
     ("score", .str (parseVariablesInString (numberOptionToString scoreOpt)))]
  let message := stringify (JsValue.obj
    [("message", JsValue.obj
      [("type", .str "companion_score_change"),
       ("project_id", .str cfg.project_id),
       ("data", data)])])
  message ++ (if cfg.append_new_line then "\r\n" else "")

/-! ## Concrete states and auxiliary notions used by the theorems -/

/-- A concrete router state: one subscription on variable `v` with empty
subpath, `v` declared. -/
def stRouter : St :=
  { isInitialized := true
    config := ⟨"ws://a", "P", true, true, false, true⟩
    reconnect_timer := none
    pendingTimers := []
    nextTimer := 0
    ws := some 0
    nextWs := 1
    status := .Ok
    subs := [("fb1", ⟨"v", ""⟩)]
    varDefs := ["v"]
    varValues := [] }

/-- A fresh instance state with the given URL configured. -/
def baseSt (u : String) : St :=
  { isInitialized := true
    config := ⟨u, "P", true, true, false, true⟩
    reconnect_timer := none
    pendingTimers := []
    nextTimer := 0
    ws := none
    nextWs := 0
    status := .Disconnected
    subs := []
    varDefs := []
    varValues := [] }

/-- The pending-timer slots a stored reconnect timer accounts for. -/
def reconTimerList : Option Nat → List (Nat × Nat)
  | some t => [(t, 5000)]
  | none => []

/-- Close events folded over a state, one after the other. -/
def closeSeq (st : St) (codes : List Nat) : St :=
  codes.foldl (fun s c => (onClose s c).1) st

/-- A live connected state with a stored reconnect timer and an open
socket. -/
def stLive : St :=
  { isInitialized := true
    config := ⟨"ws://a", "P", true, true, false, true⟩
    reconnect_timer := some 7
    pendingTimers := [(7, 5000)]
    nextTimer := 8
    ws := some 3
    nextWs := 4
    status := .Ok
    subs := [("f1", ⟨"v", ""⟩)]
    varDefs := ["v"]
    varValues := [] }

/-- The claimed invariant of C7: every declared name is referenced by some
registered subscription. -/
def declaredSubsetOfSubs (st : St) : Prop :=
  ∀ nm ∈ st.varDefs, ∃ e ∈ st.subs, e.2.variableName = nm

/-- Register a subscription for `score`, then immediately unregister it. -/
def stStale : St :=
  unsubscribeFeedback (subscribeFeedback (baseSt "ws://a") "id1" "score" "") "id1"

/-! ## Helper lemmas -/

/-- Characters that `JSON.stringify` passes through unescaped. -/
def jsonPlainChar (c : Char) : Bool :=
  c ≠ '"' && c ≠ '\\' && !(c < ' ')

theorem escChar_plain (c : Char) (h : jsonPlainChar c = true) : escChar c = [c] := by
  simp only [jsonPlainChar, Bool.and_eq_true, ne_eq, Bool.not_eq_true,
    decide_eq_false_iff_not, Bool.not_eq_true', decide_eq_true_eq] at h
  obtain ⟨⟨h1, h2⟩, h3⟩ := h
  have hc8 : c ≠ '\x08' := by intro hc; subst hc; exact absurd h3 (by decide)
  have hc9 : c ≠ '\x09' := by intro hc; subst hc; exact absurd h3 (by decide)
  have hca : c ≠ '\x0a' := by intro hc; subst hc; exact absurd h3 (by decide)
  have hcc : c ≠ '\x0c' := by intro hc; subst hc; exact absurd h3 (by decide)
  have hcd : c ≠ '\x0d' := by intro hc; subst hc; exact absurd h3 (by decide)
  simp [escChar, h1, h2, h3, hc8, hc9, hca, hcc, hcd]

theorem flatMap_escChar_plain (l : List Char) (h : ∀ c ∈ l, jsonPlainChar c = true) :
    l.flatMap escChar = l := by
  induction l with
  | nil => rfl
  | cons c rest ih =>
      rw [List.flatMap_cons, escChar_plain c (h c (by simp)), ih (fun d hd => h d (by simp [hd]))]
      rfl

/-- On strings of plain characters, `JSON.stringify` just wraps in quotes. -/
theorem jsonQuote_plain (s : String) (h : ∀ c ∈ s.data, jsonPlainChar c = true) :
    jsonQuote s = "\"" ++ s ++ "\"" := by
  unfold jsonQuote
  rw [flatMap_escChar_plain s.data h]

/-! ## C1: the `companion_score_change` envelope -/

/-- C1: for every project id `P` (of plain, escape-free characters, as the
claim embeds `P` verbatim into the expected output), dispatching the
`add_score` action with `type="add"`, `side="left"`, `score=3` passes to
`ws.send` exactly the claimed envelope string, with the score serialised as
the string `"3"`, and with CRLF appended exactly when
`config.append_new_line` is set. -/
theorem add_score_sends_exact_envelope (cfg : Config) (P : String)
    (hP : ∀ c ∈ P.data, jsonPlainChar c = true) (hproj : cfg.project_id = P) :
    add_score_message cfg "add" "left" 3 =
      "\x7b\"message\":\x7b\"type\":\"companion_score_change\",\"project_id\":\"" ++ P ++
        "\",\"data\":\x7b\"type\":\"add\",\"side\":\"left\",\"score\":\"3\"\x7d\x7d\x7d" ++
        (if cfg.append_new_line then "\x0d\n" else "") := by
  subst hproj
  have hq := jsonQuote_plain cfg.project_id hP
  have h3 : numberOptionToString 3 = "3" := rfl
  unfold add_score_message
  simp only [stringify, stringifyFields, stringifyElems, joinComma, parseVariablesInString,
    h3, hq]
  cases hb : cfg.append_new_line <;>
    · apply congrArg (· ++ _)
      apply String.ext
      simp [String.data_append, jsonQuote, escChar]

/-- Witness for C1 at `P = "P"`, `append_new_line = true`. -/
theorem add_score_sends_exact_envelope_witness :
    add_score_message ⟨"ws://a", "P", true, true, false, true⟩ "add" "left" 3 =
      "\x7b\"message\":\x7b\"type\":\"companion_score_change\",\"project_id\":\"" ++ "P" ++
        "\",\"data\":\x7b\"type\":\"add\",\"side\":\"left\",\"score\":\"3\"\x7d\x7d\x7d" ++
        (if (true : Bool) then "\x0d\n" else "") :=
  add_score_sends_exact_envelope ⟨"ws://a", "P", true, true, false, true⟩ "P"
    (by decide) rfl

/-! ## Association list and store lemmas -/

theorem lookup_assocSet_self {α : Type} (l : List (String × α)) (k : String) (v : α) :
    (assocSet l k v).lookup k = some v := by
  induction l with
  | nil => simp [assocSet, List.lookup]
  | cons e rest ih =>
      obtain ⟨k0, v0⟩ := e
      simp only [assocSet]
      by_cases he : k0 = k
      · rw [if_pos he]
        simp [List.lookup]
      · rw [if_neg he]
        have hne : (k == k0) = false := by
          simp [(Ne.symm he : k ≠ k0)]
        simp [List.lookup, hne, ih]

theorem lookup_assocSet_ne {α : Type} (l : List (String × α)) (k n : String) (v : α)
    (h : k ≠ n) : (assocSet l k v).lookup n = l.lookup n := by
  have hnk : (n == k) = false := by simp [(Ne.symm h : n ≠ k)]
  induction l with
  | nil => simp [assocSet, List.lookup, hnk]
  | cons e rest ih =>
      obtain ⟨k0, v0⟩ := e
      simp only [assocSet]
      by_cases he : k0 = k
      · rw [if_pos he]
        subst he
        simp [List.lookup, hnk]
      · rw [if_neg he]
        cases hn : (n == k0) <;> simp [List.lookup, hn, ih]

/-- Setting a single variable through the host store: accepted when
declared. -/
theorem setVariableValues_single_mem (defs : List String) (vals : List (String × JsValue))
    (k : String) (v : JsValue) (h : k ∈ defs) :
    setVariableValues defs vals [(k, v)] = assocSet vals k v := by
  simp [setVariableValues, h]

/-- Setting a single variable through the host store: ignored when not
declared. -/
theorem setVariableValues_single_notMem (defs : List String) (vals : List (String × JsValue))
    (k : String) (v : JsValue) (h : k ∉ defs) :
    setVariableValues defs vals [(k, v)] = vals := by
  simp [setVariableValues, h]

/-! ## C2: empty subpath binds the whole message -/

/-- C2 (amended): for a declared, non-empty variable name and an empty
subpath, one pass of the subscription loop binds the whole message: values
whose JS `typeof` is `object` — objects, arrays, and `null` — are bound as
their `JSON.stringify` serialisation, and all other values are bound as-is. -/
theorem empty_subpath_binds_whole_message (defs : List String)
    (vars : List (String × JsValue)) (msg : JsValue) (sub : Subscription)
    (hv : sub.variableName ≠ "") (hp : sub.subpath = "") (hd : sub.variableName ∈ defs) :
    (applySubscription defs vars msg sub).lookup sub.variableName =
      some (if typeofObject msg then JsValue.str (stringify msg) else msg) := by
  unfold applySubscription
  rw [if_neg hv, if_pos hp, setVariableValues_single_mem defs vars _ _ hd,
    lookup_assocSet_self]
  unfold bindValue
  by_cases h : typeofObject msg = true
  · simp [h]
  · simp [Bool.not_eq_true] at h
    simp [h]

/-- Witness for C2 amended: inbound message parsed from the spec example
frame, bound as the literal string it re-serialises to. -/
theorem empty_subpath_binds_whole_message_witness :
    (applySubscription ["v"] [] (.obj [("x", .num 1)]) ⟨"v", ""⟩).lookup "v" =
      some (if typeofObject (.obj [("x", .num 1)])
            then JsValue.str (stringify (.obj [("x", .num 1)]))
            else .obj [("x", .num 1)]) :=
  empty_subpath_binds_whole_message ["v"] [] (.obj [("x", .num 1)]) ⟨"v", ""⟩
    (by decide) rfl (by simp)

/-- Counterexample to C2 as stated: the inbound frame `null` parses as the
JSON scalar `null` (neither an object nor an array), so per the claim it
should be bound as-is; but the JS `typeof` of `null` is the object tag, so the code
binds the serialised string `"null"` instead. -/
theorem null_scalar_bound_serialized :
    (messageReceivedFromWebSocket stRouter .null).varValues.lookup "v" =
        some (JsValue.str "null") ∧
      (messageReceivedFromWebSocket stRouter .null).varValues.lookup "v" ≠
        some JsValue.null := by
  constructor
  · rfl
  · intro h
    have h2 : some (JsValue.str "null") = some JsValue.null :=
      ((rfl :
        (messageReceivedFromWebSocket stRouter .null).varValues.lookup "v" =
          some (JsValue.str "null"))).symm.trans h
    exact JsValue.noConfusion (Option.some.inj h2)

/-! ## C3: unresolved subpath leaves the store unchanged -/

/-- C3: for a subscription with a non-empty subpath, when the message is not
structured (its `typeof` is not `object`) or the subpath does not resolve
(`objectPath.has` fails), one pass of the subscription loop returns the
variable store unchanged — it is a total function, so no error is raised. -/
theorem unresolved_subpath_leaves_store_unchanged (defs : List String)
    (vars : List (String × JsValue)) (msg : JsValue) (sub : Subscription)
    (hp : sub.subpath ≠ "")
    (h : typeofObject msg = false ∨ opHas msg (splitPath sub.subpath) = false) :
    applySubscription defs vars msg sub = vars := by
  unfold applySubscription
  by_cases hv : sub.variableName = ""
  · rw [if_pos hv]
  · rw [if_neg hv, if_neg hp, if_neg]
    intro hcontra
    rw [Bool.and_eq_true] at hcontra
    rcases h with h | h
    · rw [h] at hcontra
      exact Bool.false_ne_true hcontra.1
    · rw [h] at hcontra
      exact Bool.false_ne_true hcontra.2

/-- Witness for C3 at the spec example: subpath `a.b` against inbound
`\x7b"a":\x7b\x7d\x7d`, where the path does not resolve. -/
theorem unresolved_subpath_leaves_store_unchanged_witness :
    applySubscription ["v"] [("v", JsValue.str "old")] (.obj [("a", .obj [])])
      ⟨"v", "a.b"⟩ = [("v", JsValue.str "old")] :=
  unresolved_subpath_leaves_store_unchanged ["v"] [("v", JsValue.str "old")]
    (.obj [("a", .obj [])]) ⟨"v", "a.b"⟩ (by decide) (Or.inr rfl)

/-! ## C4 and C9: URL validation -/

/-- Shared shape of `initWebSocket` on an invalid or empty URL. -/
theorem initWebSocket_invalid_aux (st : St)
    (h : st.config.url = "" ∨ wsUrlMatch st.config.url = false) :
    (initWebSocket st).1.status = .BadConfig ∧
    (initWebSocket st).1.ws = st.ws ∧
    (initWebSocket st).1.nextWs = st.nextWs ∧
    (initWebSocket st).1.subs = st.subs ∧
    (initWebSocket st).1.varDefs = st.varDefs ∧
    (initWebSocket st).1.varValues = st.varValues ∧
    (initWebSocket st).2 = [.statusUpdate .BadConfig] := by
  have hb : (decide (st.config.url = "") || !wsUrlMatch st.config.url) = true := by
    rcases h with h | h
    · simp [h]
    · simp [h]
  cases hrt : st.reconnect_timer <;>
    simp [initWebSocket, hrt, hb]

/-- Shared shape of `initWebSocket` on a matching URL. -/
theorem initWebSocket_valid_aux (st : St)
    (h1 : st.config.url ≠ "") (h2 : wsUrlMatch st.config.url = true) :
    (initWebSocket st).1.status = .Connecting ∧
    Effect.statusUpdate .BadConfig ∉ (initWebSocket st).2 := by
  have hb : (decide (st.config.url = "") || !wsUrlMatch st.config.url) = false := by
    simp [h1, h2]
  cases hrt : st.reconnect_timer <;> cases hws : st.ws <;>
    simp [initWebSocket, hrt, hws, hb]

/-- Host-class characters are never uppercase ASCII letters. -/
theorem hostChar_not_upper (c : Char) (h : isHostChar c = true) :
    ¬(65 ≤ c.toNat ∧ c.toNat ≤ 90) := by
  simp only [isHostChar, Bool.or_eq_true, Bool.and_eq_true, decide_eq_true_eq] at h
  omega

/-- In a slash-free remainder accepted by `matchAfterHost`, every character
is the colon or a digit, hence not an uppercase letter. -/
theorem afterHost_no_upper (l : List Char) (hm : matchAfterHost l = true)
    (hs : '/' ∉ l) : ∀ c ∈ l, ¬(65 ≤ c.toNat ∧ c.toNat ≤ 90) := by
  cases l with
  | nil => simp
  | cons c0 rest =>
      intro c hc hup
      simp only [matchAfterHost] at hm
      by_cases h0 : c0 = ':'
      · subst h0
        rw [if_pos rfl] at hm
        simp only [Bool.and_eq_true, decide_eq_true_eq] at hm
        obtain ⟨⟨hlen1, hlen5⟩, hpath⟩ := hm
        have hdw : rest.dropWhile isDigitChar = [] := by
          cases hdw : rest.dropWhile isDigitChar with
          | nil => rfl
          | cons c1 rest1 =>
              rw [hdw] at hpath
              simp only [matchPath] at hpath
              by_cases h1 : c1 = '/'
              · subst h1
                exfalso
                apply hs
                right
                have : '/' ∈ rest.dropWhile isDigitChar := by
                  rw [hdw]; exact List.mem_cons_self _ _
                exact (List.dropWhile_suffix isDigitChar).sublist.subset this
              · rw [if_neg h1] at hpath
                exact absurd hpath (by simp)
        have hrest : rest.takeWhile isDigitChar = rest := by
          have := List.takeWhile_append_dropWhile (p := isDigitChar) (l := rest)
          rw [hdw, List.append_nil] at this
          exact this
        rcases List.mem_cons.mp hc with hcc | hcr
        · subst hcc
          revert hup
          decide
        · have : isDigitChar c = true := by
            rw [← hrest] at hcr
            exact List.mem_takeWhile_imp hcr
          simp only [isDigitChar, Bool.and_eq_true, decide_eq_true_eq] at this
          omega
      · by_cases h1 : c0 = '/'
        · subst h1
          exact hs (List.mem_cons_self _ _)
        · rw [if_neg h0, if_neg h1] at hm
          exact absurd hm (by simp)

/-- Splitting off the literal `ws://` scheme prefix. -/
theorem matchScheme_ws (l : List Char) :
    matchScheme ('w' :: 's' :: ':' :: '/' :: '/' :: l) = some l := rfl

/-- A `ws://` URL whose host-and-port part contains an uppercase ASCII
letter never matches `wsRegex`. -/
theorem wsUrlMatch_upper_host_false (h : String)
    (hupper : ∃ c ∈ h.data, 65 ≤ c.toNat ∧ c.toNat ≤ 90)
    (hnoslash : '/' ∉ h.data) :
    wsUrlMatch ("ws://" ++ h) = false := by
  have hdata : ("ws://" ++ h).data = 'w' :: 's' :: ':' :: '/' :: '/' :: h.data := by
    rw [String.data_append]
    rfl
  rw [wsUrlMatch, hdata]
  unfold wsUrlMatchChars
  rw [matchScheme_ws]
  by_contra hcon
  rw [Bool.not_eq_false, Bool.and_eq_true] at hcon
  obtain ⟨hlen, hafter⟩ := hcon
  obtain ⟨c, hc, hup⟩ := hupper
  have hsplit := List.takeWhile_append_dropWhile (p := isHostChar) (l := h.data)
  rw [← hsplit] at hc
  rcases List.mem_append.mp hc with htw | hdw
  · exact hostChar_not_upper c (List.mem_takeWhile_imp htw) hup
  · have hs2 : '/' ∉ h.data.dropWhile isHostChar := fun hmem =>
      hnoslash ((List.dropWhile_suffix isHostChar).sublist.subset hmem)
    exact afterHost_no_upper _ hafter hs2 c hdw hup

/-- C4: an empty or non-matching URL drives `connect` into `BadConfig` with
no socket created (the socket slot, the socket counter and the emitted
effects show no socket activity); a matching URL drives it to `Connecting`
and the emitted status updates never include `BadConfig`. -/
theorem connect_url_validation (st : St) :
    ((st.config.url = "" ∨ wsUrlMatch st.config.url = false) →
      (initWebSocket st).1.status = .BadConfig ∧
      (initWebSocket st).1.ws = st.ws ∧
      (initWebSocket st).1.nextWs = st.nextWs ∧
      (initWebSocket st).2 = [.statusUpdate .BadConfig]) ∧
    ((st.config.url ≠ "" ∧ wsUrlMatch st.config.url = true) →
      (initWebSocket st).1.status = .Connecting ∧
      Effect.statusUpdate .BadConfig ∉ (initWebSocket st).2) := by
  constructor
  · intro h
    obtain ⟨h1, h2, h3, _, _, _, h4⟩ := initWebSocket_invalid_aux st h
    exact ⟨h1, h2, h3, h4⟩
  · intro h
    exact initWebSocket_valid_aux st h.1 h.2

/-- Witness for C4 at an empty URL and at a matching URL. -/
theorem connect_url_validation_witness :
    (initWebSocket (baseSt "")).1.status = .BadConfig ∧
    (initWebSocket (baseSt "ws://a")).1.status = .Connecting :=
  ⟨((connect_url_validation (baseSt "")).1 (Or.inl rfl)).1,
   ((connect_url_validation (baseSt "ws://a")).2 ⟨by decide, rfl⟩).1⟩

/-- Counterexample to C9 as stated: `ws://A` matches the URL pattern up to
the letter case of the host (its lowercasing `ws://a` matches), yet the
regex is compiled without the `i` flag, so `connect` rejects it with
`BadConfig`. -/
theorem uppercase_host_rejected :
    wsUrlMatch "ws://a" = true ∧ wsUrlMatch "ws://A" = false ∧
    (initWebSocket (baseSt "ws://A")).1.status = .BadConfig ∧
    (initWebSocket (baseSt "ws://a")).1.status = .Connecting :=
  ⟨rfl, rfl, rfl, rfl⟩

/-- C9 (amended): URL validation matches the host part case-sensitively —
the host class is `[\da-z.-]` and the regex carries no `i` flag — so any
`ws://` URL whose host-and-port part (slash-free prefix) contains an
uppercase ASCII letter fails the match and `connect` enters `BadConfig`. -/
theorem url_host_match_case_sensitive (st : St) (h : String)
    (hurl : st.config.url = "ws://" ++ h)
    (hupper : ∃ c ∈ h.data, 65 ≤ c.toNat ∧ c.toNat ≤ 90)
    (hnoslash : '/' ∉ h.data) :
    wsUrlMatch st.config.url = false ∧
    (initWebSocket st).1.status = .BadConfig := by
  have hm : wsUrlMatch ("ws://" ++ h) = false :=
    wsUrlMatch_upper_host_false h hupper hnoslash
  have hm2 : wsUrlMatch st.config.url = false := by rw [hurl]; exact hm
  exact ⟨hm2, (initWebSocket_invalid_aux st (Or.inr hm2)).1⟩

/-- Witness for C9 amended at host `A`. -/
theorem url_host_match_case_sensitive_witness :
    wsUrlMatch (baseSt "ws://A").config.url = false ∧
    (initWebSocket (baseSt "ws://A")).1.status = .BadConfig :=
  url_host_match_case_sensitive (baseSt "ws://A") "A" rfl
    ⟨'A', by decide, by decide⟩ (by decide)

/-! ## C5, C6, C10: lifecycle and teardown -/

/-- C5: a close event on an initialised instance with `reconnect` enabled
cancels any previously stored pending timer and leaves exactly one pending
timer, armed at the fixed 5000 ms delay. -/
theorem close_schedules_single_reconnect (st : St) (code : Nat)
    (hinit : st.isInitialized = true) (hrec : st.config.reconnect = true)
    (hinv : st.pendingTimers = reconTimerList st.reconnect_timer) :
    (onClose st code).1.pendingTimers = [(st.nextTimer, 5000)] ∧
    (onClose st code).1.reconnect_timer = some st.nextTimer := by
  cases hrt : st.reconnect_timer with
  | none =>
      rw [hrt] at hinv
      simp [onClose, maybeReconnect, hinit, hrec, hinv, hrt, reconTimerList]
  | some t =>
      rw [hrt] at hinv
      simp [onClose, maybeReconnect, hinit, hrec, hinv, hrt, reconTimerList, clearT]

/-- Witness for C5 on a fresh initialised state. -/
theorem close_schedules_single_reconnect_witness :
    (onClose (baseSt "ws://a") 1006).1.pendingTimers = [((baseSt "ws://a").nextTimer, 5000)] ∧
    (onClose (baseSt "ws://a") 1006).1.reconnect_timer = some (baseSt "ws://a").nextTimer :=
  close_schedules_single_reconnect (baseSt "ws://a") 1006 rfl rfl rfl

/-- On an uninitialised instance `maybeReconnect` does nothing, so a close
event only flips the status. -/
theorem closeSeq_inert (codes : List Nat) (st : St) (h : st.isInitialized = false) :
    (closeSeq st codes).isInitialized = false ∧
    (closeSeq st codes).pendingTimers = st.pendingTimers ∧
    (closeSeq st codes).reconnect_timer = st.reconnect_timer := by
  induction codes generalizing st with
  | nil => exact ⟨h, rfl, rfl⟩
  | cons c rest ih =>
      have hstep : (onClose st c).1 = { st with status := .Disconnected } := by
        simp [onClose, maybeReconnect, h]
      have : closeSeq st (c :: rest) = closeSeq (onClose st c).1 rest := rfl
      rw [this, hstep]
      exact ih { st with status := .Disconnected } h

/-- The state and effects `destroy` produces. -/
theorem destroy_shape (st : St)
    (hinv : st.pendingTimers = reconTimerList st.reconnect_timer) :
    (destroy st).1.isInitialized = false ∧
    (destroy st).1.pendingTimers = [] ∧
    (destroy st).1.reconnect_timer = none ∧
    (destroy st).1.ws = none ∧
    (∀ s, st.ws = some s → Effect.wsCloseCall s 1000 ∈ (destroy st).2) := by
  cases hrt : st.reconnect_timer with
  | none =>
      rw [hrt] at hinv
      cases hws : st.ws <;> simp [destroy, hrt, hws, hinv, reconTimerList]
  | some t =>
      rw [hrt] at hinv
      cases hws : st.ws <;> simp [destroy, hrt, hws, hinv, reconTimerList, clearT]

/-- C6: `destroy` marks the instance uninitialised, cancels the pending
reconnect timer, closes the socket (when present) with the normal-closure
code 1000 and drops it; afterwards, any sequence of asynchronous close
events arms no reconnect timer. -/
theorem teardown_prevents_reconnect (st : St)
    (hinv : st.pendingTimers = reconTimerList st.reconnect_timer) :
    (destroy st).1.isInitialized = false ∧
    (destroy st).1.pendingTimers = [] ∧
    (destroy st).1.reconnect_timer = none ∧
    (destroy st).1.ws = none ∧
    (∀ s, st.ws = some s → Effect.wsCloseCall s 1000 ∈ (destroy st).2) ∧
    (∀ codes : List Nat,
      (closeSeq (destroy st).1 codes).pendingTimers = [] ∧
      (closeSeq (destroy st).1 codes).reconnect_timer = none) := by
  obtain ⟨h1, h2, h3, h4, h5⟩ := destroy_shape st hinv
  refine ⟨h1, h2, h3, h4, h5, ?_⟩
  intro codes
  obtain ⟨_, hp, hr⟩ := closeSeq_inert codes (destroy st).1 h1
  exact ⟨hp.trans h2, hr.trans h3⟩

/-- Witness for C6 on a live state, with a close event arriving after
teardown. -/
theorem teardown_prevents_reconnect_witness :
    (destroy stLive).1.isInitialized = false ∧
    Effect.wsCloseCall 3 1000 ∈ (destroy stLive).2 ∧
    (closeSeq (destroy stLive).1 [1006]).pendingTimers = [] ∧
    (closeSeq (destroy stLive).1 [1006]).reconnect_timer = none :=
  ⟨(teardown_prevents_reconnect stLive rfl).1,
   (teardown_prevents_reconnect stLive rfl).2.2.2.2.1 3 rfl,
   ((teardown_prevents_reconnect stLive rfl).2.2.2.2.2 [1006]).1,
   ((teardown_prevents_reconnect stLive rfl).2.2.2.2.2 [1006]).2⟩

/-- C10: feeding `configUpdated` an empty or pattern-violating URL leaves
the previous socket in place — no close call is emitted, the socket slot is
untouched — while the reported status becomes `BadConfig`; inbound frames on
the old socket still update variables exactly as before. -/
theorem badconfig_keeps_old_socket (st : St) (cfg : Config)
    (hbad : cfg.url = "" ∨ wsUrlMatch cfg.url = false) :
    (configUpdated st cfg).1.ws = st.ws ∧
    (configUpdated st cfg).1.status = .BadConfig ∧
    (∀ s c, Effect.wsCloseCall s c ∉ (configUpdated st cfg).2) ∧
    (∀ msg, (messageReceivedFromWebSocket (configUpdated st cfg).1 msg).varValues =
            (messageReceivedFromWebSocket st msg).varValues) := by
  have hc : configUpdated st cfg = initWebSocket { st with config := cfg } := rfl
  have haux := initWebSocket_invalid_aux { st with config := cfg } (by simpa using hbad)
  obtain ⟨h1, h2, h3, h4, h5, h6, h7⟩ := haux
  rw [hc]
  refine ⟨h2, h1, ?_, ?_⟩
  · intro s c hmem
    rw [h7] at hmem
    simp at hmem
  · intro msg
    show routeMessage (initWebSocket { st with config := cfg }).1.varDefs
        (initWebSocket { st with config := cfg }).1.subs
        (initWebSocket { st with config := cfg }).1.varValues msg =
      routeMessage st.varDefs st.subs st.varValues msg
    rw [h4, h5, h6]

/-! ## C7 and C8: the subscription registry and declared variables -/

/-- Elements surviving the insertion-ordered deduplication come from the
input list. -/
theorem mem_foldl_dedup (l : List String) (x : String) :
    ∀ acc, x ∈ l.foldl (fun acc y => if y ∈ acc then acc else acc ++ [y]) acc →
      x ∈ acc ∨ x ∈ l := by
  induction l with
  | nil => intro acc h; exact Or.inl h
  | cons y ys ih =>
      intro acc h
      rw [List.foldl_cons] at h
      rcases ih _ h with hacc | hys
      · by_cases hy : y ∈ acc
        · rw [if_pos hy] at hacc
          exact Or.inl hacc
        · rw [if_neg hy] at hacc
          rcases List.mem_append.mp hacc with h1 | h2
          · exact Or.inl h1
          · right
            rw [List.mem_singleton.mp h2]
            exact List.mem_cons_self y ys
      · exact Or.inr (List.mem_cons_of_mem y hys)

theorem mem_dedupKeep (l : List String) (x : String) (h : x ∈ dedupKeep l) : x ∈ l := by
  rcases mem_foldl_dedup l x [] h with h0 | h1
  · exact absurd h0 (List.not_mem_nil x)
  · exact h1

/-- Function `updateVariables` never touches the subscription registry. -/
theorem updateVariables_subs (st : St) (c : Option String) :
    (updateVariables st c).subs = st.subs := by
  unfold updateVariables
  cases h : st.config.reset_variables <;> simp [h]

/-- The declarations `updateVariables` issues: the deduplicated conforming
variable names of the registered subscriptions. -/
theorem updateVariables_defs (st : St) (c : Option String) :
    (updateVariables st c).varDefs =
      dedupKeep ((st.subs.filter fun e => varNameOk e.2.variableName).map
        fun e => e.2.variableName) := by
  unfold updateVariables
  cases h : st.config.reset_variables <;> simp [h]

/-- Every name `updateVariables` declares passes the variable-name regex. -/
theorem conforming_of_mem_updateVariables (st : St) (c : Option String) (d : String)
    (h : d ∈ (updateVariables st c).varDefs) : varNameOk d = true := by
  rw [updateVariables_defs] at h
  obtain ⟨e, he, hname⟩ := List.mem_map.mp (mem_dedupKeep _ _ h)
  rw [← hname]
  exact (List.mem_filter.mp he).2

/-- Counterexample to C7 as stated: after `unsubscribe` the registry is
empty but `score` is still declared — `unsubscribe` never calls
`updateVariables`, so nothing is dropped from the declared-variable output
and the subset invariant is broken. -/
theorem stale_declaration_after_unregister :
    stStale.subs = [] ∧ stStale.varDefs = ["score"] ∧ ¬ declaredSubsetOfSubs stStale := by
  refine ⟨rfl, rfl, fun h => ?_⟩
  obtain ⟨e, he, _⟩ := h "score" (List.mem_singleton.mpr rfl)
  exact absurd he (List.not_mem_nil e)

/-- C7 (amended): `unregister` removes the binding but leaves the declared
list untouched; declared names are recomputed only by the next
`updateVariables` call, and at that point any name no remaining subscription
references is dropped. -/
theorem unregister_defers_declaration_refresh (st : St) (id : String)
    (callerId : Option String) :
    (unsubscribeFeedback st id).varDefs = st.varDefs ∧
    (unsubscribeFeedback st id).subs = mapDelete st.subs id ∧
    (∀ nm, (∀ e ∈ st.subs, e.2.variableName ≠ nm) →
      nm ∉ (updateVariables st callerId).varDefs) := by
  refine ⟨rfl, rfl, ?_⟩
  intro nm hnone hmem
  rw [updateVariables_defs] at hmem
  obtain ⟨e, he, hname⟩ := List.mem_map.mp (mem_dedupKeep _ _ hmem)
  exact hnone e (List.mem_filter.mp he).1 hname

/-- Witness for C7 amended: after registering `score` under `id1`,
unregistering leaves declarations unchanged, and a name referenced by no
subscription is never declared by a refresh. -/
theorem unregister_defers_declaration_refresh_witness :
    (unsubscribeFeedback (subscribeFeedback (baseSt "ws://a") "id1" "score" "") "id1").varDefs =
      (subscribeFeedback (baseSt "ws://a") "id1" "score" "").varDefs ∧
    "gone" ∉ (updateVariables (subscribeFeedback (baseSt "ws://a") "id1" "score" "") none).varDefs :=
  ⟨(unregister_defers_declaration_refresh
      (subscribeFeedback (baseSt "ws://a") "id1" "score" "") "id1" none).1,
   (unregister_defers_declaration_refresh
      (subscribeFeedback (baseSt "ws://a") "id1" "score" "") "id1" none).2.2 "gone"
      (by decide)⟩

/-- A single-entry host store update leaves undeclared names untouched. -/
theorem setVariableValues_lookup_notDecl (defs : List String)
    (vals : List (String × JsValue)) (k n : String) (v : JsValue) (hn : n ∉ defs) :
    (setVariableValues defs vals [(k, v)]).lookup n = vals.lookup n := by
  by_cases hk : k ∈ defs
  · rw [setVariableValues_single_mem defs vals k v hk]
    exact lookup_assocSet_ne vals k n v (fun he => hn (he ▸ hk))
  · rw [setVariableValues_single_notMem defs vals k v hk]

/-- One pass of the subscription loop never writes an undeclared name. -/
theorem applySubscription_lookup_notDecl (defs : List String)
    (vars : List (String × JsValue)) (msg : JsValue) (sub : Subscription)
    (n : String) (hn : n ∉ defs) :
    (applySubscription defs vars msg sub).lookup n = vars.lookup n := by
  unfold applySubscription
  by_cases h1 : sub.variableName = ""
  · rw [if_pos h1]
  · rw [if_neg h1]
    by_cases h2 : sub.subpath = ""
    · rw [if_pos h2]
      exact setVariableValues_lookup_notDecl defs vars _ n _ hn
    · rw [if_neg h2]
      by_cases h3 : (typeofObject msg && opHas msg (splitPath sub.subpath)) = true
      · rw [if_pos h3]
        exact setVariableValues_lookup_notDecl defs vars _ n _ hn
      · rw [if_neg h3]

/-- Routing a whole message never writes an undeclared name. -/
theorem routeMessage_lookup_notDecl (defs : List String)
    (subs : List (String × Subscription)) (msg : JsValue) (n : String) (hn : n ∉ defs) :
    ∀ vals, (routeMessage defs subs vals msg).lookup n = vals.lookup n := by
  induction subs with
  | nil => intro vals; rfl
  | cons e rest ih =>
      intro vals
      have hstep : routeMessage defs (e :: rest) vals msg =
          routeMessage defs rest (applySubscription defs vals msg e.2) msg := rfl
      rw [hstep, ih _, applySubscription_lookup_notDecl defs vals msg e.2 n hn]

/-- The `subscribe` callback never touches the registry beyond the
insertion. -/
theorem subscribeFeedback_subs (st : St) (id v sp : String) :
    (subscribeFeedback st id v sp).subs = assocSet st.subs id ⟨v, sp⟩ := by
  unfold subscribeFeedback
  cases hi : st.isInitialized
  · simp
  · simp [updateVariables_subs]

/-- C8: a subscription whose variable name fails `^[-a-zA-Z0-9_]+$` is
accepted into the registry, but the name is excluded from the declared
variable list, and no inbound message processing ever writes a value under
it (given the invariant that only conforming names are currently declared). -/
theorem nonconforming_name_registered_not_declared_not_updated (st : St)
    (id n sp : String) (msg : JsValue)
    (hn : varNameOk n = false) (hdefs : ∀ d ∈ st.varDefs, varNameOk d = true) :
    ((subscribeFeedback st id n sp).subs.lookup id = some ⟨n, sp⟩) ∧
    n ∉ (subscribeFeedback st id n sp).varDefs ∧
    ((messageReceivedFromWebSocket (subscribeFeedback st id n sp) msg).varValues.lookup n =
      (subscribeFeedback st id n sp).varValues.lookup n) := by
  have hnotdecl : n ∉ (subscribeFeedback st id n sp).varDefs := by
    intro hmem
    unfold subscribeFeedback at hmem
    cases hi : st.isInitialized
    · rw [hi] at hmem
      simp only [Bool.false_eq_true, if_false] at hmem
      exact absurd (hdefs n hmem) (by rw [hn]; exact Bool.false_ne_true)
    · rw [hi] at hmem
      simp only [if_true] at hmem
      exact absurd (conforming_of_mem_updateVariables _ _ n hmem)
        (by rw [hn]; exact Bool.false_ne_true)
  refine ⟨?_, hnotdecl, ?_⟩
  · rw [subscribeFeedback_subs]
    exact lookup_assocSet_self st.subs id ⟨n, sp⟩
  · exact routeMessage_lookup_notDecl _ _ msg n hnotdecl _

/-- Witness for C8 at the non-conforming name `bad name`. -/
theorem nonconforming_name_witness :
    ((subscribeFeedback (baseSt "ws://a") "f2" "bad name" "").subs.lookup "f2" =
      some ⟨"bad name", ""⟩) ∧
    "bad name" ∉ (subscribeFeedback (baseSt "ws://a") "f2" "bad name" "").varDefs ∧
    ((messageReceivedFromWebSocket (subscribeFeedback (baseSt "ws://a") "f2" "bad name" "")
        (.str "x")).varValues.lookup "bad name" =
      (subscribeFeedback (baseSt "ws://a") "f2" "bad name" "").varValues.lookup "bad name") :=
  nonconforming_name_registered_not_declared_not_updated (baseSt "ws://a") "f2" "bad name" ""
    (.str "x") (by decide) (by simp [baseSt])

/-- Witness for C10: a bad config update on a live state keeps the old
socket and inbound routing. -/
theorem badconfig_keeps_old_socket_witness :
    (configUpdated stLive ⟨"", "P", true, true, false, true⟩).1.ws = stLive.ws ∧
    (configUpdated stLive ⟨"", "P", true, true, false, true⟩).1.status = .BadConfig ∧
    ((messageReceivedFromWebSocket
        (configUpdated stLive ⟨"", "P", true, true, false, true⟩).1 (.str "x")).varValues =
      (messageReceivedFromWebSocket stLive (.str "x")).varValues) :=
  ⟨(badconfig_keeps_old_socket stLive ⟨"", "P", true, true, false, true⟩ (Or.inl rfl)).1,
   (badconfig_keeps_old_socket stLive ⟨"", "P", true, true, false, true⟩ (Or.inl rfl)).2.1,
   (badconfig_keeps_old_socket stLive ⟨"", "P", true, true, false, true⟩ (Or.inl rfl)).2.2.2
     (.str "x")⟩
